import Mathlib

/-!
Verification of the NL-2-SQL backend (`NL-2-sql-App/backend`) against its
natural-language specification.  The Python sources are shallowly embedded:
pure string manipulation becomes functions on `List Char`, functions that may
raise become `PyResult`, and the third-party `sqlparse` library is modelled on
the flat fragment actually exercised here (statement splitting at `;`,
word/whitespace/punctuation tokens, no identifier grouping).
-/

namespace NL2SQL

/-! ## Character classes and Python string primitives -/

/-- Whitespace characters recognised by Python's `str.strip` / `str.isspace`
(ASCII fragment). -/
def isWsChar (c : Char) : Bool :=
  c = ' ' || c = '\n' || c = '\t' || c = '\r' || c = '\x0b' || c = '\x0c'

/-- ASCII upper-casing, as applied by Python's `str.upper` on ASCII input. -/
def toUpperChar (c : Char) : Char :=
  if 'a' ≤ c && c ≤ 'z' then Char.ofNat (c.toNat - 32) else c

/-- ASCII lower-casing (`str.lower` on ASCII input). -/
def toLowerChar (c : Char) : Char :=
  if 'A' ≤ c && c ≤ 'Z' then Char.ofNat (c.toNat + 32) else c

def upper (s : List Char) : List Char := s.map toUpperChar

def lower (s : List Char) : List Char := s.map toLowerChar

/-- Python's substring test `needle in hay`. -/
def containsSub (needle : List Char) : List Char → Bool
  | [] => needle.isPrefixOf []
  | c :: rest => needle.isPrefixOf (c :: rest) || containsSub needle rest

/-- Characters counted as part of a word token (identifier/number characters). -/
def isWordChar (c : Char) : Bool := c.isAlphanum || c = '_'

theorem length_dropWhile_le (p : Char → Bool) (l : List Char) :
    (l.dropWhile p).length ≤ l.length := by
  induction l with
  | nil => simp [List.dropWhile]
  | cons c rest ih =>
    by_cases h : p c
    · simp only [List.dropWhile, h]
      exact Nat.le_succ_of_le ih
    · simp [List.dropWhile, h]

/-! ## Model of `sqlparse` (flat fragment)

`sqlparse.parse` splits the input at top-level `;` (the `;` stays with the
preceding statement) and lexes each statement into tokens.  We model the token
stream without sqlparse's identifier/parenthesis grouping: runs of word
characters, runs of whitespace, and single punctuation characters.  This is
faithful for statement heads and for the flat statements used below. -/

def splitStmtsAux : List Char → List Char → List (List Char)
  | acc, [] => if acc = [] then [] else [acc.reverse]
  | acc, c :: rest =>
    if c = ';' then (c :: acc).reverse :: splitStmtsAux [] rest
    else splitStmtsAux (c :: acc) rest

/-- Model of `sqlparse.parse`: the list of statements (as raw text). -/
def splitStatements (s : List Char) : List (List Char) := splitStmtsAux [] s

/-- Fuel-driven worker for `tokenize`; the fuel is an upper bound on the
input length, so the `0` case is never reached from `tokenize`. -/
def tokenizeFuel : Nat → List Char → List (List Char)
  | _, [] => []
  | 0, _ :: _ => []
  | fuel + 1, c :: rest =>
    if isWsChar c then
      (c :: rest.takeWhile isWsChar) :: tokenizeFuel fuel (rest.dropWhile isWsChar)
    else if isWordChar c then
      (c :: rest.takeWhile isWordChar) :: tokenizeFuel fuel (rest.dropWhile isWordChar)
    else [c] :: tokenizeFuel fuel rest

/-- Flat token stream of one statement: word runs, whitespace runs, single
punctuation characters. -/
def tokenize (l : List Char) : List (List Char) := tokenizeFuel l.length l

/-- `[t.value.upper() for t in stmt.tokens if not t.is_whitespace]`
(validator.py:29). -/
def stmtTokensUpper (stmt : List Char) : List (List Char) :=
  ((tokenize stmt).filter (fun t => !(t.all isWsChar))).map upper

/-- Non-whitespace top-level tokens (upper-cased) of the first parsed
statement; `[]` when parsing yields no statement. -/
def firstStmtTokens (sql : String) : List (List Char) :=
  match splitStatements sql.data with
  | [] => []
  | stmt :: _ => stmtTokensUpper stmt

/-! ## Embedded `ValidatorAgent.validate` (backend/validator.py) -/

/-- Result value of a Python call that may raise. -/
inductive PyResult (α : Type) where
  | ok (v : α)
  | exn (e : String)
deriving Repr, DecidableEq

/-- The validator's result dict (backend/validator.py); absent keys are
`none`. -/
structure ValidationResult where
  is_valid : Bool
  error : Option String := none
  warning : Option String := none
  tables_used : Option (List String) := none
deriving Repr, DecidableEq

/-- `forbidden = ["DROP", "DELETE", "UPDATE", "INSERT", "ALTER"]`
(validator.py:39). -/
def FORBIDDEN : List String := ["DROP", "DELETE", "UPDATE", "INSERT", "ALTER"]

/-- Embedding of `ValidatorAgent.validate` (validator.py:18-66).
`schemaTables` is the key list of `self.schema_tables` in insertion order.
`tokens[0]` on an empty token list raises `IndexError` in Python; the
`@log_agent_flow` decorator (logger_config.py) logs and re-raises. -/
def validate (schemaTables : List String) (sql : String) :
    PyResult ValidationResult :=
  match splitStatements sql.data with
  | [] => .ok { is_valid := false, error := some "Invalid SQL syntax" }
  | stmt :: _ =>
    match stmtTokensUpper stmt with
    | [] => .exn "IndexError"
    | t0 :: rest =>
      if !containsSub "SELECT".data t0 then
        .ok { is_valid := false, error := some "Only SELECT statements are allowed" }
      else
        match FORBIDDEN.find? (fun w => (t0 :: rest).contains w.data) with
        | some w =>
            .ok { is_valid := false,
                  error := some ("Forbidden operation detected: " ++ w) }
        | none =>
          if schemaTables.filter
              (fun t => containsSub (upper t.data) (upper sql.data)) = [] then
            .ok { is_valid := true, warning := some "No known tables referenced",
                  tables_used := some [] }
          else
            .ok { is_valid := true,
                  tables_used :=
                    some (schemaTables.filter
                      (fun t => containsSub (upper t.data) (upper sql.data))) }

/-- `schema_tables` as constructed in `app.py` (keys in insertion order). -/
def bankingTables : List String :=
  ["accounts", "branches", "customers", "employees", "transactions"]

/-! ## Embedded `ExecutorAgent.run_query` (backend/executor.py) -/

/-- Outcome of `cursor.execute` + fetch on the sqlite connection: the row
list, or an `sqlite3.Error` message. -/
inductive DbOutcome (Row : Type) where
  | rows (rs : List Row)
  | err (msg : String)

/-- The executor's result dict; absent keys are `none`. -/
structure ExecResult (Row : Type) where
  success : Bool
  results : Option (List Row) := none
  message : Option String := none
  error : Option String := none

/-- Embedding of `ExecutorAgent.run_query` (executor.py:10-35).  `db` maps the
SQL text to the outcome of executing it; `rs.take limit` is
`cursor.fetchmany(limit)`.  The second component of the result records whether
a DB connection was opened (trace instrumentation: the source opens the
connection exactly on the non-early path).  The validation gate
`if validation_context and not validation_context.get("is_valid")` is modelled
on `Option ValidationResult`; the validator's dicts are non-empty, hence
truthy. -/
def runQuery {Row : Type} (db : String → DbOutcome Row) (sql : String)
    (limit : Nat := 100) (validation_context : Option ValidationResult := none) :
    ExecResult Row × Bool :=
  if validation_context.any (fun ctx => !ctx.is_valid) then
    ({ success := false, error := some "Query failed validation" }, false)
  else
    match db sql with
    | .rows rs =>
      let results := rs.take limit
      if results.isEmpty then
        ({ success := true, results := some [], message := some "No results found" }, true)
      else
        ({ success := true, results := some results }, true)
    | .err e => ({ success := false, error := some e }, true)

/-- Embedding of `SQLGeneratorAgent._test_sql_execution`
(sql_generator.py:308-317): smoke-runs the SQL through a fresh executor with
`limit=1` and no validation context. -/
def testSqlExecution {Row : Type} (db : String → DbOutcome Row) (sql : String) :
    ExecResult Row × Bool :=
  runQuery db sql 1 none

/-! ## Embedded pipeline loop (backend/pipeline.py) -/

/-- `PipelineConfig` (pipeline.py:9-12). -/
structure PipelineConfig where
  max_retries : Nat := 2
  sql_row_limit : Nat := 200

inductive RunStatus where
  | success
  | failure
  | raised
deriving Repr, DecidableEq

/-- Outcome of `NL2SQLPipeline.run`'s validate/execute/repair loop
(pipeline.py:113-185), instrumented with the call traces needed for the
safety and retry-bound claims.  `retries` is `diag.retries`;
timing/logging fields are elided.  `raised` models an exception propagating
out of `run` (e.g. the validator's `IndexError`). -/
structure RunResult where
  status : RunStatus
  sql : String
  error : Option String := none
  retries : Nat
  validateCalls : List String := []
  repairCalls : List String := []
  execCalls : List String := []

/-- The loop `while attempts <= self.cfg.max_retries` (pipeline.py:115-173),
as a fuel recursion: the fuel-0 case is the loop condition turning false.
Entered from `pipelineRun` with `fuel + attempts = max_retries + 1`, so the
in-loop break checks `attempts > max_retries` are the ones the source
performs.  Arguments mirror the loop state: current `sql`, `attempts`,
`last_error`, and the accumulated call traces. -/
def runLoop {Row : Type} (validateF : String → PyResult ValidationResult)
    (repairF : String → String) (db : String → DbOutcome Row)
    (cfg : PipelineConfig) :
    Nat → String → Nat → Option String →
    List String → List String → List String → RunResult
  | 0, sql, attempts, lastError, vCalls, rCalls, eCalls =>
      { status := .failure, sql,
        error := some (lastError.getD "Could not produce safe SQL"),
        retries := attempts,
        validateCalls := vCalls, repairCalls := rCalls, execCalls := eCalls }
  | fuel + 1, sql, attempts, lastError, vCalls, rCalls, eCalls =>
    match validateF sql with
    | .exn e =>
        { status := .raised, sql, error := some e, retries := attempts,
          validateCalls := vCalls ++ [sql], repairCalls := rCalls,
          execCalls := eCalls }
    | .ok v =>
      if v.is_valid = false then
        if cfg.max_retries < attempts + 1 then
          { status := .failure, sql,
            error := some (lastError.getD "Could not produce safe SQL"),
            retries := attempts + 1,
            validateCalls := vCalls ++ [sql], repairCalls := rCalls,
            execCalls := eCalls }
        else
          runLoop validateF repairF db cfg fuel
            (repairF (v.error.getD "unknown validation error")) (attempts + 1)
            lastError (vCalls ++ [sql])
            (rCalls ++ [v.error.getD "unknown validation error"]) eCalls
      else
        if ((runQuery db sql cfg.sql_row_limit (some v)).1).success then
          { status := .success, sql, retries := attempts,
            validateCalls := vCalls ++ [sql], repairCalls := rCalls,
            execCalls := eCalls ++ [sql] }
        else
          if cfg.max_retries < attempts + 1 then
            { status := .failure, sql,
              error := some (((runQuery db sql cfg.sql_row_limit (some v)).1).error.getD "unknown"),
              retries := attempts + 1,
              validateCalls := vCalls ++ [sql], repairCalls := rCalls,
              execCalls := eCalls ++ [sql] }
          else
            runLoop validateF repairF db cfg fuel
              (repairF (((runQuery db sql cfg.sql_row_limit (some v)).1).error.getD "unknown"))
              (attempts + 1)
              (some (((runQuery db sql cfg.sql_row_limit (some v)).1).error.getD "unknown"))
              (vCalls ++ [sql])
              (rCalls ++ [((runQuery db sql cfg.sql_row_limit (some v)).1).error.getD "unknown"])
              (eCalls ++ [sql])

/-- `NL2SQLPipeline.run` after generation (pipeline.py:113): the loop starts
with `attempts = 0` on the generated SQL.  `genSql` is the value of
`self.generator.generate(...)`. -/
def pipelineRun {Row : Type} (validateF : String → PyResult ValidationResult)
    (repairF : String → String) (db : String → DbOutcome Row)
    (cfg : PipelineConfig) (genSql : String) : RunResult :=
  runLoop validateF repairF db cfg (cfg.max_retries + 1) genSql 0 none [] [] []

/-! ## Planner date-range clarification (backend/planner.py) -/

def isDigitChar (c : Char) : Bool := '0' ≤ c && c ≤ '9'

/-- Regex word character (`\w`): letters, digits, underscore. -/
def isReWordChar (c : Char) : Bool := c.isAlphanum || c = '_'

/-- `re.search(r"\b(20\d{2}|202\d)\b", text)` (planner.py:156): some
occurrence of `20` followed by two digits, delimited by word boundaries.
(`202\d` is subsumed by `20\d{2}`.)  `prev` is the character before the
current position, `none` at the start of the text. -/
def hasYearFrom (prev : Option Char) : List Char → Bool
  | '2' :: '0' :: d1 :: d2 :: rest =>
      (isDigitChar d1 && isDigitChar d2 &&
        !(prev.any isReWordChar) &&
        (match rest with | [] => true | c :: _ => !isReWordChar c))
      || hasYearFrom (some '2') ('0' :: d1 :: d2 :: rest)
  | _ :: [] => false
  | [] => false
  | c :: rest => hasYearFrom (some c) rest

def hasYearToken (text : String) : Bool := hasYearFrom none text.data

/-- One clarification record (planner.py `clar.append({...})`). -/
structure Clarification where
  field : String
  prompt : String
  type : String
  default : String
deriving Repr, DecidableEq

/-- Embedding of the date-range clause of
`PlannerAgent._detect_clarifications` (planner.py:155-162).  Python parses the
guard as `("recent" in tl) or (("last" in tl) and not re.search(year, text))`
(`and` binds tighter than `or`).  Returns the record appended to `clar`, if
any. -/
def dateRangeClarification (text : String) : Option Clarification :=
  let tl := lower text.data
  if containsSub "recent".data tl ||
      (containsSub "last".data tl && !hasYearToken text) then
    some { field := "date_range",
           prompt := "What date range do you mean by 'recent'?",
           type := "text",
           default := "last 30 days" }
  else
    none

/-! ## Prompt construction and `repair_sql`
(backend/llm_prompt_builder_new.py, backend/sql_generator.py) -/

/-- The `error_context` block attached by `PromptingAgent.build_prompt`
(llm_prompt_builder_new.py:459-468). -/
structure ErrorContextBlock where
  previous_error : String
  correction_focus : List String
deriving Repr, DecidableEq

/-- The `correction_focus` checklist (llm_prompt_builder_new.py:462-467). -/
def correctionFocus : List String :=
  ["Verify column names against schema", "Check join conditions",
   "Validate value domains", "Review aggregation logic"]

/-- Projection of the prompt dict built by `PromptingAgent.build_prompt`
(llm_prompt_builder_new.py:331-475) to the fields the claims reason about;
the constant instruction blocks, schema context, reasoning steps and examples
are elided.  `error_context` is attached iff the argument is truthy
(`if error_context:` at line 459). -/
structure PromptDoc where
  input_query : String
  detected_tables : List String
  capabilities : List String
  error_context : Option ErrorContextBlock
deriving Repr, DecidableEq

/-- Embedding of `PromptingAgent.build_prompt` (llm_prompt_builder_new.py:331-475),
projected as in `PromptDoc`. -/
def buildPrompt (query : String) (detectedTables capabilities : List String)
    (errorContext : Option String) : PromptDoc :=
  { input_query := query,
    detected_tables := detectedTables,
    capabilities := capabilities,
    error_context :=
      match errorContext with
      | none => none
      | some e =>
          if e = "" then none
          else some { previous_error := e, correction_focus := correctionFocus } }

/-- The context fields `_try_llm_generation` reads from `gen_ctx`
(sql_generator.py:330-334). -/
structure GenCtx where
  detected_tables : List String
  detected_capabilities : List String

/-- The prompt issued for the first LLM call inside
`SQLGeneratorAgent._try_llm_generation` (sql_generator.py:319-335):
`error_context` is initialised to `None` (line 321) and at
`attempt_number == 1` the prompt is built from it unchanged. -/
def tryLLMGenerationFirstPrompt (query : String) (ctx : GenCtx) : PromptDoc :=
  buildPrompt query ctx.detected_tables ctx.detected_capabilities none

/-- Embedding of `SQLGeneratorAgent.repair_sql` (sql_generator.py:559-580) up
to its first LLM call: it computes
`error_context = self.validator.get_error_context(hint)` — which is never
used afterwards — and delegates to
`_try_llm_generation(query, gen_ctx, attempts_left=2)`, whose first prompt
carries no error context.  The `hint` argument therefore never reaches the
prompt. -/
def repairSqlFirstPrompt (query : String) (ctx : GenCtx) (hint : String) :
    PromptDoc :=
  tryLLMGenerationFirstPrompt query ctx

/-! ## LLM response cleaning and parsing (backend/sql_generator.py) -/

/-- The backtick character (U+0060). -/
def btick : Char := '\x60'

/-- Python `str.strip()` (ASCII whitespace fragment). -/
def pyStrip (s : List Char) : List Char :=
  ((s.dropWhile isWsChar).reverse.dropWhile isWsChar).reverse

/-- Python `str.strip(ch)` for a single character. -/
def pyStripChar (c : Char) (s : List Char) : List Char :=
  ((s.dropWhile (· = c)).reverse.dropWhile (· = c)).reverse

/-- Worker for `findSubFrom`: index (relative, starting at `i`) of the first
position where `needle` is a prefix. -/
def findSubAux (needle : List Char) : List Char → Nat → Option Nat
  | [], i => if needle.isEmpty then some i else none
  | c :: rest, i =>
    if needle.isPrefixOf (c :: rest) then some i
    else findSubAux needle rest (i + 1)

/-- Python `hay.find(needle, start)`; `none` models `-1`. -/
def findSubFrom (hay needle : List Char) (start : Nat) : Option Nat :=
  (findSubAux needle (hay.drop start) 0).map (· + start)

/-- The fenced-block removal step of `_clean_llm_response`
(sql_generator.py:156-171): remove one fenced code block
(` ```json … ``` ` or ` ``` … ``` `) if present, stripping the slice. -/
def stripFence (cleaned : List Char) : List Char :=
  if "```json".data.isPrefixOf cleaned then
    match findSubFrom cleaned "```".data 7 with
    | some endMarker => pyStrip ((cleaned.drop 7).take (endMarker - 7))
    | none => pyStrip (cleaned.drop 7)
  else if "```".data.isPrefixOf cleaned then
    match findSubFrom cleaned "```".data 3 with
    | some endMarker => pyStrip ((cleaned.drop 3).take (endMarker - 3))
    | none => pyStrip (cleaned.drop 3)
  else cleaned

/-- Embedding of `SQLGeneratorAgent._clean_llm_response`
(sql_generator.py:150-186): strip, remove one fenced code block if present,
then strip stray backticks from both ends. -/
def cleanLLMResponse (response : List Char) : List Char :=
  pyStripChar btick (stripFence (pyStrip response))

/-- Hex digit used by `\uXXXX` escapes (lower case, as CPython emits). -/
def hexDigit (n : Nat) : Char :=
  "0123456789abcdef".data.getD n '0' 

/-- Model of the escaping `json.dumps` (default `ensure_ascii=True`) applies
inside string literals; faithful for characters below U+10000. -/
def escChar (c : Char) : List Char :=
  if c = '"' then ['\\', '"']
  else if c = '\\' then ['\\', '\\']
  else if c = '\n' then ['\\', 'n']
  else if c = '\t' then ['\\', 't']
  else if c = '\r' then ['\\', 'r']
  else if c.toNat = 8 then ['\\', 'b']
  else if c.toNat = 12 then ['\\', 'f']
  else if c.toNat < 0x20 || 0x7f ≤ c.toNat then
    '\\' :: 'u' ::
      ((List.range 4).reverse.map fun k => hexDigit (c.toNat / 16 ^ k % 16))
  else [c]

/-- A JSON string literal, as `json.dumps` renders it. -/
def jsonStr (s : List Char) : List Char :=
  '"' :: s.flatMap escChar ++ ['"']

/-- `json.dumps({"SQLQuery": q, "Suggestion": s})` with the default
separators: the serialisation `wrap(x)` of a response object `x`. -/
def dumpsResponse (q s : List Char) : List Char :=
  '{' :: (jsonStr "SQLQuery".data ++ ": ".data ++ jsonStr q ++ ", ".data ++
    jsonStr "Suggestion".data ++ ": ".data ++ jsonStr s ++ ['}'])

/-- The two fenced wrappings of the spec's round-trip law. -/
def wrapFencedJson (body : List Char) : List Char :=
  "```json\n".data ++ body ++ "\n```".data

def wrapFenced (body : List Char) : List Char :=
  "```\n".data ++ body ++ "\n```".data

def parseHexDigit (c : Char) : Option Nat :=
  match "0123456789abcdef".data.indexOf? c with
  | some i => some i
  | none => "0123456789ABCDEF".data.indexOf? c

/-- JSON string-literal body parser (model of `json.loads` string scanning):
consumes up to and including the closing quote, returning the decoded
characters and the remaining input. -/
def parseJStrAux (acc : List Char) : List Char → Option (List Char × List Char)
  | [] => none
  | c :: rest =>
    if c = '"' then some (acc.reverse, rest)
    else if c = '\\' then
      match rest with
      | [] => none
      | e :: rest2 =>
        if e = '"' then parseJStrAux ('"' :: acc) rest2
        else if e = '\\' then parseJStrAux ('\\' :: acc) rest2
        else if e = '/' then parseJStrAux ('/' :: acc) rest2
        else if e = 'n' then parseJStrAux ('\n' :: acc) rest2
        else if e = 't' then parseJStrAux ('\t' :: acc) rest2
        else if e = 'r' then parseJStrAux ('\r' :: acc) rest2
        else if e = 'b' then parseJStrAux (Char.ofNat 8 :: acc) rest2
        else if e = 'f' then parseJStrAux (Char.ofNat 12 :: acc) rest2
        else if e = 'u' then
          match rest2 with
          | h1 :: h2 :: h3 :: h4 :: rest3 =>
            match parseHexDigit h1, parseHexDigit h2, parseHexDigit h3, parseHexDigit h4 with
            | some a, some b, some hc, some d =>
                parseJStrAux (Char.ofNat (4096 * a + 256 * b + 16 * hc + d) :: acc) rest3
            | _, _, _, _ => none
          | _ => none
        else none
    else parseJStrAux (c :: acc) rest

def parseJStr : List Char → Option (List Char × List Char)
  | '"' :: rest => parseJStrAux [] rest
  | _ => none

def skipJWs (s : List Char) : List Char :=
  s.dropWhile (fun c => c = ' ' || c = '\t' || c = '\n' || c = '\r')

/-- Members of a JSON object whose values are strings (the shape
`_parse_llm_response` consumes); other value shapes are out of the model and
map to `none`, like a `json.JSONDecodeError`.  Fuel bounds the number of
members. -/
def parseMembers : Nat → List Char → Option (List (List Char × List Char) × List Char)
  | 0, _ => none
  | fuel + 1, s =>
    match parseJStr (skipJWs s) with
    | none => none
    | some (key, rest) =>
      match skipJWs rest with
      | ':' :: rest2 =>
        match parseJStr (skipJWs rest2) with
        | none => none
        | some (val, rest3) =>
          match skipJWs rest3 with
          | ',' :: rest4 =>
            match parseMembers fuel rest4 with
            | some (ms, rest5) => some ((key, val) :: ms, rest5)
            | none => none
          | '}' :: rest4 => some ([(key, val)], rest4)
          | _ => none
      | _ => none

/-- Model of `json.loads` on one-level objects with string values.  (The
empty object `{}` is recognised after member parsing fails, which accepts the
same inputs as testing for `}` first.) -/
def parseTopObject (s : List Char) : Option (List (List Char × List Char)) :=
  match skipJWs s with
  | '{' :: rest =>
    (match parseMembers (rest.length + 1) rest with
     | some (ms, rest2) => if skipJWs rest2 = [] then some ms else none
     | none =>
       match skipJWs rest with
       | '}' :: rest2 => if skipJWs rest2 = [] then some [] else none
       | _ => none)
  | _ => none

/-- Python `response_json.get(key, "")` (the parsed object becomes a dict;
our inputs have distinct keys, so first match suffices). -/
def lookupStr (ms : List (List Char × List Char)) (key : List Char) : List Char :=
  match ms.find? (fun kv => kv.1 == key) with
  | some kv => kv.2
  | none => []

/-- Embedding of `SQLGeneratorAgent._parse_llm_response`
(sql_generator.py:117-148): clean, JSON-parse, extract and strip `SQLQuery`
and `Suggestion`; `none` models the `(None, None)` failure returns (parse
error or a missing/empty field). -/
def parseLLMResponse (response : List Char) : Option (List Char × List Char) :=
  match parseTopObject (cleanLLMResponse response) with
  | none => none
  | some ms =>
    if pyStrip (lookupStr ms "SQLQuery".data) = [] ∨
        pyStrip (lookupStr ms "Suggestion".data) = [] then none
    else
      some (pyStrip (lookupStr ms "SQLQuery".data),
        pyStrip (lookupStr ms "Suggestion".data))

/-! ## Helper lemmas about the validator -/

/-- Reduction of `validate` once the (non-empty) token list of the first
statement is known. -/
theorem validate_eq_of_firstTokens (tables : List String) (sql : String)
    (t0 : List Char) (rest : List (List Char))
    (h : firstStmtTokens sql = t0 :: rest) :
    validate tables sql =
      (if !containsSub "SELECT".data t0 then
        .ok { is_valid := false,
              error := some "Only SELECT statements are allowed" }
      else
        match FORBIDDEN.find? (fun w => (t0 :: rest).contains w.data) with
        | some w =>
            .ok { is_valid := false,
                  error := some ("Forbidden operation detected: " ++ w) }
        | none =>
          if tables.filter (fun t => containsSub (upper t.data) (upper sql.data)) = [] then
            .ok { is_valid := true, warning := some "No known tables referenced",
                  tables_used := some [] }
          else
            .ok { is_valid := true,
                  tables_used :=
                    some (tables.filter
                      (fun t => containsSub (upper t.data) (upper sql.data))) }) := by
  unfold firstStmtTokens at h
  unfold validate
  split
  · next heq => rw [heq] at h; cases h
  · next stmt stmts heq =>
      rw [heq] at h
      change stmtTokensUpper stmt = t0 :: rest at h
      rw [h]

/-- Every invalid-SQL error message a forbidden-keyword rejection can carry
differs from the leading-verb rejection message. -/
theorem forbidden_message_ne_select_message :
    ∀ w ∈ FORBIDDEN,
      "Forbidden operation detected: " ++ w ≠ "Only SELECT statements are allowed" := by
  decide

/-! ## Claim theorems: validator behaviour -/

/-- C6: for the constant-expression statement `SELECT 1`, which names no
table after FROM or JOIN, `ValidatorAgent.validate` returns `is_valid=true`
with `tables_used = []` and a warning. -/
theorem c6_select_one_valid_empty_tables_warning :
    validate bankingTables "SELECT 1" =
      .ok { is_valid := true, warning := some "No known tables referenced",
            tables_used := some [] } := rfl

/-- C7: the empty input yields `is_valid=false` as claimed, but a
whitespace-only input makes `validate` raise `IndexError` (`tokens[0]` on an
empty token list; the logging decorator re-raises) instead of returning an
invalid verdict. -/
theorem c7_empty_invalid_but_whitespace_raises :
    validate bankingTables "" =
      .ok { is_valid := false, error := some "Invalid SQL syntax" } ∧
    validate bankingTables " " = .exn "IndexError" ∧
    validate bankingTables "   " = .exn "IndexError" :=
  ⟨rfl, rfl, rfl⟩

/-- C5 counterexample: a single-statement CTE query whose first significant
token is `WITH` is rejected by the statement-form check (`"SELECT" not in
tokens[0]`), contradicting the claim that it passes like a `SELECT`. -/
theorem c5_with_cte_rejected_counterexample :
    validate bankingTables "WITH t AS (SELECT 1) SELECT * FROM t" =
      .ok { is_valid := false,
            error := some "Only SELECT statements are allowed" } := rfl

/-- C5 (amended): the statement-form check accepts exactly the statements
whose first top-level token contains `SELECT`; a leading `WITH` token is
rejected with "Only SELECT statements are allowed", while a statement whose
first token contains `SELECT` is never rejected with that message. -/
theorem c5_leading_verb_check (tables : List String) (sql : String) :
    (∀ rest, firstStmtTokens sql = "WITH".data :: rest →
      validate tables sql =
        .ok { is_valid := false,
              error := some "Only SELECT statements are allowed" }) ∧
    (∀ t0 rest r, firstStmtTokens sql = t0 :: rest →
      containsSub "SELECT".data t0 = true →
      validate tables sql = .ok r →
      r.error ≠ some "Only SELECT statements are allowed") := by
  constructor
  · intro rest h
    rw [validate_eq_of_firstTokens tables sql _ rest h]
    simp [show containsSub "SELECT".data "WITH".data = false from rfl]
  · intro t0 rest r h hsel hv
    rw [validate_eq_of_firstTokens tables sql t0 rest h, hsel] at hv
    simp only [Bool.not_true, Bool.false_eq_true, if_false] at hv
    split at hv
    · next w hw =>
      cases hv
      exact fun hc =>
        forbidden_message_ne_select_message w (List.mem_of_find?_eq_some hw)
          (by simpa using hc)
    · next hw =>
      split at hv <;> (cases hv; simp)

/-- Closed witness for `c5_leading_verb_check`. -/
theorem c5_leading_verb_check_witness :
    validate bankingTables "WITH y AS (SELECT 2) SELECT * FROM y" =
      .ok { is_valid := false,
            error := some "Only SELECT statements are allowed" } ∧
    (({ is_valid := true, warning := some "No known tables referenced",
        tables_used := some [] } : ValidationResult).error ≠
      some "Only SELECT statements are allowed") := by
  constructor
  · exact (c5_leading_verb_check bankingTables
      "WITH y AS (SELECT 2) SELECT * FROM y").1 _ rfl
  · exact (c5_leading_verb_check bankingTables "SELECT 3").2
      "SELECT".data ["3".data] _ rfl rfl rfl

/-- C1 counterexample: `PRAGMA` — one of the fifteen keywords the claim lists
— appears as a standalone token of the SQL text, yet `validate` accepts the
query (only the first parsed statement is tokenised, and only five keywords
are checked). -/
theorem c1_forbidden_keyword_counterexample :
    "PRAGMA".data ∈ (tokenize "SELECT 1; PRAGMA optimize".data).map upper ∧
    validate bankingTables "SELECT 1; PRAGMA optimize" =
      .ok { is_valid := true, warning := some "No known tables referenced",
            tables_used := some [] } :=
  ⟨by decide, rfl⟩

/-! ## Pipeline loop invariants -/

/-- Loop invariant: every SQL the loop hands to `executor.run_query` was
accepted by the validator in that same iteration. -/
theorem runLoop_execCalls_validated {Row : Type}
    (validateF : String → PyResult ValidationResult) (repairF : String → String)
    (db : String → DbOutcome Row) (cfg : PipelineConfig) :
    ∀ (fuel : Nat) (sql : String) (attempts : Nat) (lastError : Option String)
      (vCalls rCalls eCalls : List String),
      (∀ s ∈ eCalls, ∃ v, validateF s = .ok v ∧ v.is_valid = true) →
      ∀ s ∈ (runLoop validateF repairF db cfg fuel sql attempts lastError
              vCalls rCalls eCalls).execCalls,
        ∃ v, validateF s = .ok v ∧ v.is_valid = true := by
  intro fuel
  induction fuel with
  | zero =>
    intro sql attempts lastError vC rC eC hinv s hs
    rw [runLoop] at hs
    exact hinv s hs
  | succ f ih =>
    intro sql attempts lastError vC rC eC hinv s hs
    rw [runLoop] at hs
    split at hs
    · exact hinv s hs
    · next v heq =>
      split at hs
      · -- validation failed
        split at hs
        · exact hinv s hs
        · exact ih _ _ _ _ _ _ hinv s hs
      · next hvalid =>
        have hv : v.is_valid = true := by
          cases hb : v.is_valid
          · exact absurd hb hvalid
          · rfl
        have hinv' : ∀ s ∈ eC ++ [sql], ∃ v, validateF s = .ok v ∧ v.is_valid = true := by
          intro s hs
          rcases List.mem_append.1 hs with h | h
          · exact hinv s h
          · rcases List.mem_singleton.1 h with rfl
            exact ⟨v, heq, hv⟩
        split at hs
        · exact hinv' s hs
        · split at hs
          · exact hinv' s hs
          · exact ih _ _ _ _ _ _ hinv' s hs

/-- Loop invariant: bound on `diag.retries`, on the number of validation
iterations and on the number of repair calls, under the entry relation
`attempts + fuel = max_retries + 1`. -/
theorem runLoop_retry_bounds {Row : Type}
    (validateF : String → PyResult ValidationResult) (repairF : String → String)
    (db : String → DbOutcome Row) (cfg : PipelineConfig) :
    ∀ (fuel : Nat) (sql : String) (attempts : Nat) (lastError : Option String)
      (vCalls rCalls eCalls : List String),
      attempts + fuel = cfg.max_retries + 1 →
      (runLoop validateF repairF db cfg fuel sql attempts lastError
          vCalls rCalls eCalls).retries ≤ cfg.max_retries + 1 ∧
      (runLoop validateF repairF db cfg fuel sql attempts lastError
          vCalls rCalls eCalls).validateCalls.length ≤ vCalls.length + fuel ∧
      (runLoop validateF repairF db cfg fuel sql attempts lastError
          vCalls rCalls eCalls).repairCalls.length ≤ rCalls.length + (fuel - 1) := by
  intro fuel
  induction fuel with
  | zero =>
    intro sql attempts lastError vC rC eC hrel
    rw [runLoop]
    dsimp only
    refine ⟨by omega, by omega, by omega⟩
  | succ f ih =>
    intro sql attempts lastError vC rC eC hrel
    rw [runLoop]
    split
    · dsimp only
      refine ⟨by omega, by simp, by simp⟩
    · next v heq =>
      split
      · -- validation failed
        split
        · next hbreak =>
          dsimp only
          refine ⟨by omega, by simp, by simp⟩
        · next hbreak =>
          have h := ih (repairF (v.error.getD "unknown validation error"))
            (attempts + 1) lastError (vC ++ [sql])
            (rC ++ [v.error.getD "unknown validation error"]) eC (by omega)
          refine ⟨h.1, ?_, ?_⟩
          · have h21 := h.2.1
            simp only [List.length_append, List.length_cons, List.length_nil] at h21 ⊢
            omega
          · have h22 := h.2.2
            simp only [List.length_append, List.length_cons, List.length_nil] at h22 ⊢
            omega
      · split
        · dsimp only
          refine ⟨by omega, by simp, by simp⟩
        · split
          · next hbreak =>
            dsimp only
            refine ⟨by omega, by simp, by simp⟩
          · next hbreak =>
            have h := ih
              (repairF (((runQuery db sql cfg.sql_row_limit (some v)).1).error.getD "unknown"))
              (attempts + 1)
              (some (((runQuery db sql cfg.sql_row_limit (some v)).1).error.getD "unknown"))
              (vC ++ [sql])
              (rC ++ [((runQuery db sql cfg.sql_row_limit (some v)).1).error.getD "unknown"])
              (eC ++ [sql]) (by omega)
            refine ⟨h.1, ?_, ?_⟩
            · have h21 := h.2.1
              simp only [List.length_append, List.length_cons, List.length_nil] at h21 ⊢
              omega
            · have h22 := h.2.2
              simp only [List.length_append, List.length_cons, List.length_nil] at h22 ⊢
              omega

/-! ## Claim theorems: safety gate and retry bound -/

/-- C1 (amended): any SQL in which one of the five keywords the code actually
checks (`DROP, DELETE, UPDATE, INSERT, ALTER`) occurs as a standalone
top-level token of the first parsed statement is rejected by the validator,
and the pipeline never passes validator-rejected SQL to the executor (every
SQL in the executor-call trace was accepted by the validator). -/
theorem c1_forbidden_rejected_and_not_executed :
    (∀ (tables : List String) (sql : String) (w : String), w ∈ FORBIDDEN →
      (firstStmtTokens sql).contains w.data = true →
      ∃ r, validate tables sql = .ok r ∧ r.is_valid = false) ∧
    (∀ (Row : Type) (db : String → DbOutcome Row) (repairF : String → String)
        (cfg : PipelineConfig) (genSql : String) (tables : List String),
      ∀ s ∈ (pipelineRun (validate tables) repairF db cfg genSql).execCalls,
        ∃ v, validate tables s = .ok v ∧ v.is_valid = true) := by
  constructor
  · intro tables sql w hw hcont
    cases htk : firstStmtTokens sql with
    | nil => rw [htk] at hcont; cases hcont
    | cons t0 rest =>
      rw [htk] at hcont
      rw [validate_eq_of_firstTokens tables sql t0 rest htk]
      split
      · exact ⟨_, rfl, rfl⟩
      · cases hf : FORBIDDEN.find? (fun w => (t0 :: rest).contains w.data) with
        | none =>
          exact absurd hcont (by
            simpa using (List.find?_eq_none.1 hf) w hw)
        | some w' =>
          exact ⟨_, rfl, rfl⟩
  · intro Row db repairF cfg genSql tables s hs
    exact runLoop_execCalls_validated (validate tables) repairF db cfg
      (cfg.max_retries + 1) genSql 0 none [] [] [] (by simp) s hs

/-- Closed witness for `c1_forbidden_rejected_and_not_executed`: `DELETE` as
a standalone token of a SELECT-headed statement is rejected, and a pipeline
run on it executes nothing. -/
theorem c1_forbidden_rejected_witness :
    (∃ r, validate bankingTables "SELECT 1 DELETE" = .ok r ∧ r.is_valid = false) ∧
    (∀ s ∈ (pipelineRun (validate bankingTables) (fun _ => "SELECT 1 DELETE")
        (fun _ => (DbOutcome.err "unused" : DbOutcome Unit)) {} "SELECT 1 DELETE").execCalls,
      ∃ v, validate bankingTables s = .ok v ∧ v.is_valid = true) :=
  ⟨c1_forbidden_rejected_and_not_executed.1 bankingTables "SELECT 1 DELETE"
      "DELETE" (by decide) (by decide),
    c1_forbidden_rejected_and_not_executed.2 Unit _ _ {} "SELECT 1 DELETE"
      bankingTables⟩

/-- C2: for any agents and configuration, the pipeline loop performs at most
`max_retries + 1` validation iterations, makes at most `max_retries` repair
calls, and the returned diagnostics satisfy
`retries ≤ max_retries + 1` — on the success, failure and exception paths
alike. -/
theorem c2_retry_bound {Row : Type}
    (validateF : String → PyResult ValidationResult) (repairF : String → String)
    (db : String → DbOutcome Row) (cfg : PipelineConfig) (genSql : String) :
    (pipelineRun validateF repairF db cfg genSql).retries ≤ cfg.max_retries + 1 ∧
    (pipelineRun validateF repairF db cfg genSql).validateCalls.length ≤
      cfg.max_retries + 1 ∧
    (pipelineRun validateF repairF db cfg genSql).repairCalls.length ≤
      cfg.max_retries := by
  have h := runLoop_retry_bounds validateF repairF db cfg
    (cfg.max_retries + 1) genSql 0 none [] [] [] (by omega)
  rw [pipelineRun]
  refine ⟨h.1, ?_, ?_⟩
  · simpa using h.2.1
  · have := h.2.2
    simpa using this

/-! ## Claim theorems: executor -/

/-- C10: `run_query` returns the early failure dict without touching the
database iff a validation context is supplied whose `is_valid` is false;
with `validation_context=None` (as on the generator's smoke-execution path,
`_test_sql_execution`) the SQL is executed with no validation gate. -/
theorem c10_executor_validation_gate {Row : Type} (db : String → DbOutcome Row)
    (sql : String) (limit : Nat) (ctx : Option ValidationResult) :
    (runQuery db sql limit ctx =
        ({ success := false, error := some "Query failed validation" }, false) ↔
      ∃ v, ctx = some v ∧ v.is_valid = false) ∧
    (runQuery db sql limit none).2 = true ∧
    testSqlExecution db sql = runQuery db sql 1 none := by
  have htrue : ∀ (c : Option ValidationResult),
      (c.any fun x => !x.is_valid) = false → (runQuery db sql limit c).2 = true := by
    intro c hc
    rw [runQuery, hc]
    simp only [Bool.false_eq_true, if_false]
    cases db sql with
    | rows rs => by_cases hres : (rs.take limit).isEmpty <;> simp [hres]
    | err e => rfl
  refine ⟨⟨?_, ?_⟩, htrue none rfl, rfl⟩
  · intro h
    cases ctx with
    | none =>
      have h2 := htrue none rfl
      rw [h] at h2
      cases h2
    | some v =>
      cases hv : v.is_valid with
      | true =>
        have h2 := htrue (some v) (by simp [Option.any, hv])
        rw [h] at h2
        cases h2
      | false => exact ⟨v, rfl, hv⟩
  · rintro ⟨v, rfl, hv⟩
    rw [runQuery]
    simp [Option.any, hv]

/-- C4 counterexample: called with default arguments on a 250-row query
result, `run_query` returns 100 rows — its own default row limit is 100, not
the 200 the claim states. -/
theorem c4_default_limit_counterexample :
    (runQuery (fun _ => DbOutcome.rows (List.range 250))
        "SELECT amount FROM payments").1.results = some (List.range 100) ∧
    (List.range 100).length = 100 ∧ (100 : Nat) ≠ 200 := by
  refine ⟨rfl, by simp, by decide⟩

/-- C4 (amended): for a validated SELECT whose full result set has more than
`limit` rows, `run_query` returns exactly `limit` rows with `success=true`;
the pipeline's configured `sql_row_limit` defaults to 200 (while
`run_query`'s own default `limit` parameter is 100, see the
counterexample). -/
theorem c4_row_cap {Row : Type} (db : String → DbOutcome Row) (sql : String)
    (limit : Nat) (v : ValidationResult) (rows : List Row)
    (hv : v.is_valid = true) (hdb : db sql = .rows rows)
    (hlen : limit < rows.length) :
    ((runQuery db sql limit (some v)).1.success = true ∧
      ((runQuery db sql limit (some v)).1.results.getD []).length = limit) ∧
    ({} : PipelineConfig).sql_row_limit = 200 := by
  refine ⟨?_, rfl⟩
  rw [runQuery]
  have hgate : ((some v).any fun x => !x.is_valid) = false := by
    simp [Option.any, hv]
  rw [hgate, hdb]
  simp only [Bool.false_eq_true, if_false]
  by_cases hemp : (rows.take limit).isEmpty
  · have hl : (rows.take limit).length = 0 := by
      rw [List.isEmpty_iff.1 hemp]
      rfl
    rw [List.length_take] at hl
    have hlim : limit = 0 := by omega
    simp [hemp, hlim]
  · simp only [hemp, if_false]
    refine ⟨rfl, ?_⟩
    simp [List.length_take]
    omega

/-- Closed witness for `c4_row_cap`. -/
theorem c4_row_cap_witness :
    ((runQuery (fun _ => DbOutcome.rows (List.range 9))
        "SELECT id FROM branches" 4 (some { is_valid := true })).1.success = true ∧
      ((runQuery (fun _ => DbOutcome.rows (List.range 9))
        "SELECT id FROM branches" 4 (some { is_valid := true })).1.results.getD
          []).length = 4) ∧
    ({} : PipelineConfig).sql_row_limit = 200 :=
  c4_row_cap (fun _ => DbOutcome.rows (List.range 9)) "SELECT id FROM branches"
    4 { is_valid := true } (List.range 9) rfl rfl (by simp)

/-! ## Claim theorems: planner clarification and repair prompt -/

/-- C8 counterexample: a question containing "recent" together with an
explicit year token still emits the date_range clarification — the guard
parses as `("recent" in tl) or (("last" in tl) and not year)`, so the year
test never guards "recent". -/
theorem c8_recent_with_year_counterexample :
    hasYearToken "recent transactions in 2024" = true ∧
    dateRangeClarification "recent transactions in 2024" =
      some { field := "date_range",
             prompt := "What date range do you mean by 'recent'?",
             type := "text", default := "last 30 days" } := ⟨rfl, rfl⟩

/-- C8 (amended): the planner emits the date_range clarification iff the
lowercased question contains the substring "recent", or contains the
substring "last" and no year token. -/
theorem c8_date_range_guard (text : String) :
    dateRangeClarification text =
      some { field := "date_range",
             prompt := "What date range do you mean by 'recent'?",
             type := "text", default := "last 30 days" } ↔
    (containsSub "recent".data (lower text.data) = true ∨
      (containsSub "last".data (lower text.data) = true ∧
        hasYearToken text = false)) := by
  cases hr : containsSub "recent".data (lower text.data) <;>
    cases hlst : containsSub "last".data (lower text.data) <;>
      cases hy : hasYearToken text <;>
        simp [dateRangeClarification, hr, hlst, hy]

/-- C3: the pipeline's repair path drops its error hint — the prompt for the
first LLM call made by `repair_sql` carries no error context (neither the
previous SQL nor the error message), even though `build_prompt` would attach
the message and the correction-focus checklist when given a non-empty
error context. -/
theorem c3_repair_prompt_lacks_error_context (query : String) (ctx : GenCtx)
    (hint : String) :
    (repairSqlFirstPrompt query ctx hint).error_context = none ∧
    (hint ≠ "" →
      (buildPrompt query ctx.detected_tables ctx.detected_capabilities
          (some hint)).error_context =
        some { previous_error := hint, correction_focus := correctionFocus }) := by
  refine ⟨rfl, fun h => ?_⟩
  simp [buildPrompt, h]

/-- Closed witness for `c3_repair_prompt_lacks_error_context`. -/
theorem c3_repair_prompt_lacks_error_context_witness :
    (repairSqlFirstPrompt "show customer emails" ⟨["customers"], []⟩
        "no such column: full_name").error_context = none ∧
    (buildPrompt "show customer emails" ["customers"] []
        (some "no such column: full_name")).error_context =
      some { previous_error := "no such column: full_name",
             correction_focus := correctionFocus } := by
  have h := c3_repair_prompt_lacks_error_context "show customer emails"
    ⟨["customers"], []⟩ "no such column: full_name"
  exact ⟨h.1, h.2 (by decide)⟩

/-! ## Round-trip lemmas for the LLM-response parser -/

/-- Characters for which the `json.dumps` escaping model is exercised by the
round-trip law: printable ASCII plus newline, tab and carriage return. -/
def GoodChar (c : Char) : Prop :=
  (0x20 ≤ c.toNat ∧ c.toNat ≤ 0x7e) ∨ c = '\n' ∨ c = '\t' ∨ c = '\r'

instance : DecidablePred GoodChar := fun c => by
  unfold GoodChar; infer_instance

theorem escChar_plain (c : Char) (hg : GoodChar c) (h1 : c ≠ '"')
    (h2 : c ≠ '\\') (h3 : c ≠ '\n') (h4 : c ≠ '\t') (h5 : c ≠ '\r') :
    escChar c = [c] := by
  rcases hg with ⟨hlo, hhi⟩ | h | h | h
  · rw [escChar, if_neg h1, if_neg h2, if_neg h3, if_neg h4, if_neg h5,
      if_neg (by omega : ¬ c.toNat = 8), if_neg (by omega : ¬ c.toNat = 12),
      if_neg]
    simp only [Bool.or_eq_true, decide_eq_true_eq]
    omega
  · exact absurd h h3
  · exact absurd h h4
  · exact absurd h h5

/-- Parsing the escaped rendering of a good string consumes it up to the
closing quote. -/
theorem parseJStrAux_escape :
    ∀ (q : List Char), (∀ c ∈ q, GoodChar c) →
      ∀ (acc rest : List Char),
        parseJStrAux acc (q.flatMap escChar ++ '"' :: rest) =
          some (acc.reverse ++ q, rest) := by
  intro q
  induction q with
  | nil =>
    intro _ acc rest
    rw [parseJStrAux.eq_def]
    simp
  | cons c q' ih =>
    intro hg acc rest
    have hgc : GoodChar c := hg c (List.mem_cons_self c q')
    have ih' := ih (fun x hx => hg x (List.mem_cons_of_mem c hx))
    rw [List.flatMap_cons, List.append_assoc]
    by_cases h1 : c = '"'
    · subst h1
      rw [show escChar '"' = ['\\', '"'] from rfl]
      simp only [List.cons_append, List.nil_append]
      rw [parseJStrAux.eq_def]
      simp [ih']
    · by_cases h2 : c = '\\'
      · subst h2
        rw [show escChar '\\' = ['\\', '\\'] from rfl]
        simp only [List.cons_append, List.nil_append]
        rw [parseJStrAux.eq_def]
        simp [ih']
      · by_cases h3 : c = '\n'
        · subst h3
          rw [show escChar '\n' = ['\\', 'n'] from rfl]
          simp only [List.cons_append, List.nil_append]
          rw [parseJStrAux.eq_def]
          simp [ih']
        · by_cases h4 : c = '\t'
          · subst h4
            rw [show escChar '\t' = ['\\', 't'] from rfl]
            simp only [List.cons_append, List.nil_append]
            rw [parseJStrAux.eq_def]
            simp [ih']
          · by_cases h5 : c = '\r'
            · subst h5
              rw [show escChar '\r' = ['\\', 'r'] from rfl]
              simp only [List.cons_append, List.nil_append]
              rw [parseJStrAux.eq_def]
              simp [ih']
            · rw [escChar_plain c hgc h1 h2 h3 h4 h5]
              simp only [List.cons_append, List.nil_append]
              rw [parseJStrAux.eq_def]
              simp [h1, h2, ih']

/-- Parsing a serialised string literal. -/
theorem parseJStr_jsonStr (q : List Char) (hq : ∀ c ∈ q, GoodChar c)
    (rest : List Char) :
    parseJStr (jsonStr q ++ rest) = some (q, rest) := by
  rw [jsonStr]
  simp only [List.cons_append, List.append_assoc, List.singleton_append]
  rw [parseJStr]
  simpa using parseJStrAux_escape q hq [] rest

/-- Unfolding of `parseMembers` at positive fuel. -/
theorem parseMembers_succ (n : Nat) (s : List Char) :
    parseMembers (n + 1) s =
      (match parseJStr (skipJWs s) with
      | none => none
      | some (key, rest) =>
        match skipJWs rest with
        | ':' :: rest2 =>
          match parseJStr (skipJWs rest2) with
          | none => none
          | some (val, rest3) =>
            match skipJWs rest3 with
            | ',' :: rest4 =>
              match parseMembers n rest4 with
              | some (ms, rest5) => some ((key, val) :: ms, rest5)
              | none => none
            | '}' :: rest4 => some ([(key, val)], rest4)
            | _ => none
        | _ => none) := by
  rw [parseMembers.eq_def]

theorem skipJWs_jsonStr (k r : List Char) :
    skipJWs (jsonStr k ++ r) = jsonStr k ++ r := by
  simp [jsonStr, skipJWs, List.cons_append, List.dropWhile_cons]

theorem skipJWs_colon (r : List Char) : skipJWs (':' :: r) = ':' :: r := by
  simp [skipJWs, List.dropWhile_cons]

theorem skipJWs_comma (r : List Char) : skipJWs (',' :: r) = ',' :: r := by
  simp [skipJWs, List.dropWhile_cons]

theorem skipJWs_rbrace (r : List Char) : skipJWs ('}' :: r) = '}' :: r := by
  simp [skipJWs, List.dropWhile_cons]

theorem skipJWs_lbrace (r : List Char) : skipJWs ('{' :: r) = '{' :: r := by
  simp [skipJWs, List.dropWhile_cons]

theorem skipJWs_space (r : List Char) : skipJWs (' ' :: r) = skipJWs r := by
  simp [skipJWs, List.dropWhile_cons]

/-- The serialisation, with the separators written out as characters. -/
theorem dumpsResponse_eq (q s : List Char) :
    dumpsResponse q s =
      '{' :: (jsonStr "SQLQuery".data ++ (':' :: ' ' :: (jsonStr q ++
        (',' :: ' ' :: (jsonStr "Suggestion".data ++
          (':' :: ' ' :: (jsonStr s ++ ['}']))))))) := by
  rw [dumpsResponse, show ": ".data = [':', ' '] from rfl,
    show ", ".data = [',', ' '] from rfl]
  simp [List.cons_append, List.append_assoc]

/-- Member parsing of the serialised response object. -/
theorem parseMembers_dumps (q s : List Char)
    (hq : ∀ c ∈ q, GoodChar c) (hs : ∀ c ∈ s, GoodChar c) (n : Nat) :
    parseMembers (n + 1 + 1)
      (jsonStr "SQLQuery".data ++ (':' :: ' ' :: (jsonStr q ++
        (',' :: ' ' :: (jsonStr "Suggestion".data ++
          (':' :: ' ' :: (jsonStr s ++ ['}']))))))) =
      some ([("SQLQuery".data, q), ("Suggestion".data, s)], []) := by
  have hkey1 : ∀ c ∈ "SQLQuery".data, GoodChar c := by decide
  have hkey2 : ∀ c ∈ "Suggestion".data, GoodChar c := by decide
  rw [parseMembers_succ, skipJWs_jsonStr, parseJStr_jsonStr _ hkey1]
  simp only [skipJWs_colon, skipJWs_space, skipJWs_jsonStr,
    parseJStr_jsonStr _ hq, skipJWs_comma]
  rw [parseMembers_succ]
  simp only [skipJWs_space, skipJWs_jsonStr, parseJStr_jsonStr _ hkey2,
    skipJWs_colon, parseJStr_jsonStr _ hs, skipJWs_rbrace]

/-- Parsing the full serialised response object. -/
theorem parseTopObject_dumps (q s : List Char)
    (hq : ∀ c ∈ q, GoodChar c) (hs : ∀ c ∈ s, GoodChar c) :
    parseTopObject (dumpsResponse q s) =
      some [("SQLQuery".data, q), ("Suggestion".data, s)] := by
  rw [dumpsResponse_eq]
  unfold parseTopObject
  rw [skipJWs_lbrace]
  split
  · next x rest heq =>
    injection heq with h1 h2
    subst h2
    have h2 : 2 ≤ (jsonStr "SQLQuery".data).length := by decide
    have hlen : (jsonStr "SQLQuery".data ++ (':' :: ' ' :: (jsonStr q ++
        (',' :: ' ' :: (jsonStr "Suggestion".data ++
          (':' :: ' ' :: (jsonStr s ++ ['}']))))))).length =
        ((jsonStr "SQLQuery".data ++ (':' :: ' ' :: (jsonStr q ++
        (',' :: ' ' :: (jsonStr "Suggestion".data ++
          (':' :: ' ' :: (jsonStr s ++ ['}']))))))).length - 1 - 1) + 1 + 1 := by
      rw [List.length_append]
      omega
    rw [hlen, parseMembers_dumps q s hq hs]
    simp [skipJWs]
  · next x hne => simp at hne

/-- Stripping a predicate from both ends is the identity when neither end
matches. -/
theorem stripEnds_no_match (p : Char → Bool) (l : List Char)
    (h1 : ∀ c, l.head? = some c → p c = false)
    (h2 : ∀ c, l.getLast? = some c → p c = false) :
    ((l.dropWhile p).reverse.dropWhile p).reverse = l := by
  have hd : l.dropWhile p = l := by
    cases l with
    | nil => rfl
    | cons a t => simp [List.dropWhile_cons, h1 a rfl]
  rw [hd]
  have hr : l.reverse.dropWhile p = l.reverse := by
    cases hrev : l.reverse with
    | nil => rfl
    | cons a t =>
      have ha : l.getLast? = some a := by
        rw [← List.head?_reverse, hrev]; rfl
      simp [List.dropWhile_cons, h2 a ha]
  rw [hr, List.reverse_reverse]

theorem isPrefixOf_append_self (l t : List Char) :
    l.isPrefixOf (l ++ t) = true := by
  induction l with
  | nil => simp [List.isPrefixOf]
  | cons a l ih => simp [List.isPrefixOf, ih]

/-- The serialised response is a `{` … `}` sandwich. -/
theorem dumpsResponse_shape (q s : List Char) :
    ∃ mid, dumpsResponse q s = '{' :: (mid ++ ['}']) := by
  refine ⟨jsonStr "SQLQuery".data ++ (':' :: ' ' :: (jsonStr q ++
    (',' :: ' ' :: (jsonStr "Suggestion".data ++ (':' :: ' ' :: jsonStr s))))), ?_⟩
  rw [dumpsResponse_eq]
  simp [List.append_assoc]

/-- `str.strip()` leaves the serialised response unchanged. -/
theorem pyStrip_dumpsResponse (q s : List Char) :
    pyStrip (dumpsResponse q s) = dumpsResponse q s := by
  obtain ⟨mid, hmid⟩ := dumpsResponse_shape q s
  rw [pyStrip]
  apply stripEnds_no_match
  · rw [hmid]
    intro c hc
    rw [List.head?_cons, Option.some.injEq] at hc
    subst hc
    rfl
  · rw [hmid, show ('{' :: (mid ++ ['}'])) = (('{' :: mid) ++ ['}']) from rfl,
      List.getLast?_concat]
    intro c hc
    rw [Option.some.injEq] at hc
    subst hc
    rfl

/-- `str.strip` on backticks leaves the serialised response unchanged. -/
theorem pyStripChar_dumpsResponse (q s : List Char) :
    pyStripChar btick (dumpsResponse q s) = dumpsResponse q s := by
  obtain ⟨mid, hmid⟩ := dumpsResponse_shape q s
  rw [pyStripChar]
  apply stripEnds_no_match
  · rw [hmid]
    intro c hc
    rw [List.head?_cons, Option.some.injEq] at hc
    subst hc
    decide
  · rw [hmid, show ('{' :: (mid ++ ['}'])) = (('{' :: mid) ++ ['}']) from rfl,
      List.getLast?_concat]
    intro c hc
    rw [Option.some.injEq] at hc
    subst hc
    decide

/-- The fence markers do not prefix the serialised response. -/
theorem fences_not_prefix_dumps (q s : List Char) :
    ("```json".data.isPrefixOf (dumpsResponse q s)) = false ∧
    ("```".data.isPrefixOf (dumpsResponse q s)) = false := by
  obtain ⟨mid, hmid⟩ := dumpsResponse_shape q s
  rw [hmid]
  exact ⟨rfl, rfl⟩

/-- Cleaning a raw (unfenced) serialised response is the identity. -/
theorem clean_dumps (q s : List Char) :
    cleanLLMResponse (dumpsResponse q s) = dumpsResponse q s := by
  rw [cleanLLMResponse, pyStrip_dumpsResponse, stripFence,
    (fences_not_prefix_dumps q s).1, (fences_not_prefix_dumps q s).2]
  simp only [Bool.false_eq_true, if_false]
  exact pyStripChar_dumpsResponse q s

/-- The fenced-block marker, as a character list. -/
def fenceChars : List Char := "```".data

/-- Whether the fence prefixes a list is unaffected by what follows a
newline, since the fence contains no newline. -/
theorem fence_isPrefixOf_newline (l suffix : List Char) :
    (fenceChars.isPrefixOf (l ++ '\n' :: suffix)) =
      (fenceChars.isPrefixOf (l ++ ['\n'])) := by
  rcases l with _ | ⟨a, _ | ⟨b, _ | ⟨x, l⟩⟩⟩ <;> simp [List.isPrefixOf, fenceChars]

/-- A trailing newline cannot extend or create a fence occurrence at the
start. -/
theorem fence_isPrefixOf_concat_newline (X : List Char) :
    (fenceChars.isPrefixOf (X ++ ['\n'])) = (fenceChars.isPrefixOf X) := by
  rcases X with _ | ⟨a, _ | ⟨b, _ | ⟨x, l⟩⟩⟩ <;> simp [List.isPrefixOf, fenceChars]

/-- A trailing newline cannot create a fence occurrence. -/
theorem containsSub_fence_concat_newline (l : List Char) :
    containsSub fenceChars (l ++ ['\n']) = containsSub fenceChars l := by
  induction l with
  | nil => rfl
  | cons c t ih =>
    have hx := fence_isPrefixOf_concat_newline (c :: t)
    rw [List.cons_append] at hx
    rw [List.cons_append, containsSub, containsSub, ih, hx]

/-- A non-empty needle is found immediately at its own occurrence. -/
theorem findSubAux_self (needle rest : List Char) (hne : needle ≠ [])
    (i : Nat) : findSubAux needle (needle ++ rest) i = some i := by
  cases hn : needle with
  | nil => exact absurd hn hne
  | cons a t =>
    rw [findSubAux.eq_def]
    simp only [List.cons_append]
    have h := isPrefixOf_append_self (a :: t) rest
    simp only [List.cons_append] at h
    simp [h]

/-- Locating the closing fence: scanning a fence-free body followed by
`\n` and the fence finds exactly the fence position. -/
theorem findSubAux_fence :
    ∀ (body : List Char), containsSub fenceChars (body ++ ['\n']) = false →
      ∀ (rest : List Char) (i : Nat),
        findSubAux fenceChars (body ++ '\n' :: (fenceChars ++ rest)) i =
          some (i + body.length + 1) := by
  intro body
  induction body with
  | nil =>
    intro _ rest i
    simp only [List.nil_append]
    rw [findSubAux.eq_def]
    simp only [show (fenceChars.isPrefixOf ('\n' :: (fenceChars ++ rest))) = false
      from rfl, Bool.false_eq_true, if_false]
    rw [findSubAux_self _ _ (by decide) (i + 1)]
    simp
  | cons c t ih =>
    intro h rest i
    have hsplit : (fenceChars.isPrefixOf (c :: (t ++ ['\n']))) = false ∧
        containsSub fenceChars (t ++ ['\n']) = false := by
      rw [List.cons_append, containsSub] at h
      simp only [Bool.or_eq_false_iff] at h
      exact ⟨h.1, h.2⟩
    have hpre : (fenceChars.isPrefixOf (c :: (t ++ '\n' :: (fenceChars ++ rest)))) = false := by
      have h1 := fence_isPrefixOf_newline (c :: t) (fenceChars ++ rest)
      rw [List.cons_append, List.cons_append] at h1
      rw [h1]
      exact hsplit.1
    rw [List.cons_append, findSubAux.eq_def]
    simp only [hpre, Bool.false_eq_true, if_false]
    rw [ih hsplit.2 rest (i + 1)]
    simp only [List.length_cons, Option.some.injEq]
    omega


theorem pyStrip_newline_sandwich (B : List Char)
    (h1 : ∀ c, B.head? = some c → isWsChar c = false)
    (h2 : ∀ c, B.getLast? = some c → isWsChar c = false)
    (hB : B ≠ []) :
    pyStrip ('\n' :: (B ++ ['\n'])) = B := by
  rw [pyStrip, List.dropWhile_cons]
  simp only [show isWsChar '\n' = true from rfl, if_true]
  have hd : List.dropWhile isWsChar (B ++ ['\n']) = B ++ ['\n'] := by
    cases B with
    | nil => exact absurd rfl hB
    | cons a t =>
      rw [List.cons_append, List.dropWhile_cons]
      simp [h1 a rfl]
  rw [hd, List.reverse_append, show List.reverse ['\n'] = ['\n'] from rfl,
    List.singleton_append, List.dropWhile_cons]
  simp only [show isWsChar '\n' = true from rfl, if_true]
  have hr : List.dropWhile isWsChar B.reverse = B.reverse := by
    cases hrev : B.reverse with
    | nil => rfl
    | cons b u =>
      have hb : B.getLast? = some b := by rw [← List.head?_reverse, hrev]; rfl
      rw [List.dropWhile_cons]
      simp [h2 b hb]
  rw [hr, List.reverse_reverse]

theorem fence_not_prefix_newline (X : List Char) :
    fenceChars.isPrefixOf ('\n' :: X) = false := rfl

theorem stripFence_wrapFencedJson (B : List Char)
    (h1 : ∀ c, B.head? = some c → isWsChar c = false)
    (h2 : ∀ c, B.getLast? = some c → isWsChar c = false)
    (hB : B ≠ [])
    (hfence : containsSub fenceChars B = false) :
    stripFence (wrapFencedJson B) = B := by
  have hW7 : wrapFencedJson B = "```json".data ++ ('\n' :: (B ++ '\n' :: fenceChars)) := by
    rw [wrapFencedJson, show "```json\n".data = "```json".data ++ ['\n'] from rfl,
      show "\n```".data = '\n' :: fenceChars from rfl, List.append_assoc]
    rfl
  have hbody : containsSub fenceChars (('\n' :: B) ++ ['\n']) = false := by
    rw [containsSub_fence_concat_newline, containsSub, hfence, fence_not_prefix_newline]
    rfl
  have hfind := findSubAux_fence ('\n' :: B) hbody [] 0
  rw [List.append_nil, List.cons_append] at hfind
  have hfull : findSubFrom ("```json".data ++ ('\n' :: (B ++ '\n' :: fenceChars)))
      "```".data 7 = some (B.length + 2 + 7) := by
    rw [findSubFrom, show (7 : Nat) = "```json".data.length from rfl, List.drop_left,
      show "```".data = fenceChars from rfl, hfind]
    simp only [Option.map_some', List.length_cons, Option.some.injEq]
    omega
  rw [hW7, stripFence]
  have hpj : ("```json".data.isPrefixOf
      ("```json".data ++ ('\n' :: (B ++ '\n' :: fenceChars)))) = true :=
    isPrefixOf_append_self _ _
  rw [if_pos hpj, hfull]
  show pyStrip ((("```json".data ++ ('\n' :: (B ++ '\n' :: fenceChars))).drop 7).take
    (B.length + 2 + 7 - 7)) = B
  rw [show (7 : Nat) = "```json".data.length from rfl, List.drop_left,
    show B.length + 2 + "```json".data.length - "```json".data.length =
      (B.length + 1) + 1 from by simp,
    List.take_succ_cons, show B.length + 1 = B.length + 1 from rfl]
  rw [show List.take (B.length + 1) (B ++ '\n' :: fenceChars) =
    B ++ List.take 1 ('\n' :: fenceChars) from List.take_append 1]
  rw [show List.take 1 ('\n' :: fenceChars) = ['\n'] from rfl]
  exact pyStrip_newline_sandwich B h1 h2 hB

theorem stripFence_wrapFenced (B : List Char)
    (h1 : ∀ c, B.head? = some c → isWsChar c = false)
    (h2 : ∀ c, B.getLast? = some c → isWsChar c = false)
    (hB : B ≠ [])
    (hfence : containsSub fenceChars B = false) :
    stripFence (wrapFenced B) = B := by
  have hW3 : wrapFenced B = fenceChars ++ ('\n' :: (B ++ '\n' :: fenceChars)) := by
    rw [wrapFenced, show "```\n".data = fenceChars ++ ['\n'] from rfl,
      show "\n```".data = '\n' :: fenceChars from rfl, List.append_assoc]
    rfl
  have hbody : containsSub fenceChars (('\n' :: B) ++ ['\n']) = false := by
    rw [containsSub_fence_concat_newline, containsSub, hfence, fence_not_prefix_newline]
    rfl
  have hfind := findSubAux_fence ('\n' :: B) hbody [] 0
  rw [List.append_nil, List.cons_append] at hfind
  have hfull : findSubFrom (fenceChars ++ ('\n' :: (B ++ '\n' :: fenceChars)))
      "```".data 3 = some (B.length + 2 + 3) := by
    rw [findSubFrom, show (3 : Nat) = fenceChars.length from rfl, List.drop_left,
      show "```".data = fenceChars from rfl, hfind]
    simp only [Option.map_some', List.length_cons, Option.some.injEq]
    omega
  rw [hW3, stripFence]
  have hnpj : ("```json".data.isPrefixOf
      (fenceChars ++ ('\n' :: (B ++ '\n' :: fenceChars)))) = false := rfl
  rw [hnpj]
  simp only [Bool.false_eq_true, if_false]
  have hp3 : ("```".data.isPrefixOf
      (fenceChars ++ ('\n' :: (B ++ '\n' :: fenceChars)))) = true :=
    isPrefixOf_append_self _ _
  rw [if_pos hp3, hfull]
  show pyStrip (((fenceChars ++ ('\n' :: (B ++ '\n' :: fenceChars))).drop 3).take
    (B.length + 2 + 3 - 3)) = B
  rw [show (3 : Nat) = fenceChars.length from rfl, List.drop_left,
    show B.length + 2 + fenceChars.length - fenceChars.length =
      (B.length + 1) + 1 from by simp,
    List.take_succ_cons]
  rw [show List.take (B.length + 1) (B ++ '\n' :: fenceChars) =
    B ++ List.take 1 ('\n' :: fenceChars) from List.take_append 1]
  rw [show List.take 1 ('\n' :: fenceChars) = ['\n'] from rfl]
  exact pyStrip_newline_sandwich B h1 h2 hB


theorem dumps_ne_nil (q s : List Char) : dumpsResponse q s ≠ [] := by
  obtain ⟨mid, hmid⟩ := dumpsResponse_shape q s
  rw [hmid]
  exact List.cons_ne_nil _ _

theorem dumps_head_no_ws (q s : List Char) :
    ∀ c, (dumpsResponse q s).head? = some c → isWsChar c = false := by
  obtain ⟨mid, hmid⟩ := dumpsResponse_shape q s
  rw [hmid]
  intro c hc
  rw [List.head?_cons, Option.some.injEq] at hc
  subst hc
  rfl

theorem dumps_last_no_ws (q s : List Char) :
    ∀ c, (dumpsResponse q s).getLast? = some c → isWsChar c = false := by
  obtain ⟨mid, hmid⟩ := dumpsResponse_shape q s
  rw [hmid, show ('{' :: (mid ++ ['}'])) = (('{' :: mid) ++ ['}']) from rfl,
    List.getLast?_concat]
  intro c hc
  rw [Option.some.injEq] at hc
  subst hc
  rfl

theorem pyStrip_wrapFencedJson (B : List Char) :
    pyStrip (wrapFencedJson B) = wrapFencedJson B := by
  apply stripEnds_no_match
  · intro c hc
    have hh : (wrapFencedJson B).head? = some btick := rfl
    rw [hh, Option.some.injEq] at hc
    subst hc
    rfl
  · intro c hc
    have hl : (wrapFencedJson B).getLast? = some btick := by
      rw [wrapFencedJson,
        List.getLast?_append_of_ne_nil _ (show "\n```".data ≠ [] by decide)]
      rfl
    rw [hl, Option.some.injEq] at hc
    subst hc
    rfl

theorem pyStrip_wrapFenced (B : List Char) :
    pyStrip (wrapFenced B) = wrapFenced B := by
  apply stripEnds_no_match
  · intro c hc
    have hh : (wrapFenced B).head? = some btick := rfl
    rw [hh, Option.some.injEq] at hc
    subst hc
    rfl
  · intro c hc
    have hl : (wrapFenced B).getLast? = some btick := by
      rw [wrapFenced,
        List.getLast?_append_of_ne_nil _ (show "\n```".data ≠ [] by decide)]
      rfl
    rw [hl, Option.some.injEq] at hc
    subst hc
    rfl

/-- Cleaning the two fenced wrappings of a fence-free serialised response
recovers the response. -/
theorem clean_wrapFencedJson_dumps (q s : List Char)
    (hfence : containsSub fenceChars (dumpsResponse q s) = false) :
    cleanLLMResponse (wrapFencedJson (dumpsResponse q s)) = dumpsResponse q s := by
  rw [cleanLLMResponse, pyStrip_wrapFencedJson,
    stripFence_wrapFencedJson _ (dumps_head_no_ws q s) (dumps_last_no_ws q s)
      (dumps_ne_nil q s) hfence]
  exact pyStripChar_dumpsResponse q s

theorem clean_wrapFenced_dumps (q s : List Char)
    (hfence : containsSub fenceChars (dumpsResponse q s) = false) :
    cleanLLMResponse (wrapFenced (dumpsResponse q s)) = dumpsResponse q s := by
  rw [cleanLLMResponse, pyStrip_wrapFenced,
    stripFence_wrapFenced _ (dumps_head_no_ws q s) (dumps_last_no_ws q s)
      (dumps_ne_nil q s) hfence]
  exact pyStripChar_dumpsResponse q s

/-- Once cleaning recovers the serialised response, parsing extracts the
(stripped, non-empty) fields. -/
theorem parseLLMResponse_of_clean (q s X : List Char)
    (hclean : cleanLLMResponse X = dumpsResponse q s)
    (hqG : ∀ c ∈ q, GoodChar c) (hsG : ∀ c ∈ s, GoodChar c)
    (hq0 : pyStrip q = q) (hs0 : pyStrip s = s)
    (hqne : q ≠ []) (hsne : s ≠ []) :
    parseLLMResponse X = some (q, s) := by
  rw [parseLLMResponse, hclean, parseTopObject_dumps q s hqG hsG]
  have hne : ("SQLQuery".data == "Suggestion".data) = false := by decide
  have hl1 : lookupStr [("SQLQuery".data, q), ("Suggestion".data, s)]
      "SQLQuery".data = q := by
    simp [lookupStr, List.find?]
  have hl2 : lookupStr [("SQLQuery".data, q), ("Suggestion".data, s)]
      "Suggestion".data = s := by
    simp [lookupStr, List.find?, hne]
  show (if pyStrip (lookupStr [("SQLQuery".data, q), ("Suggestion".data, s)]
        "SQLQuery".data) = [] ∨
      pyStrip (lookupStr [("SQLQuery".data, q), ("Suggestion".data, s)]
        "Suggestion".data) = [] then none
    else some (pyStrip (lookupStr [("SQLQuery".data, q), ("Suggestion".data, s)]
        "SQLQuery".data),
      pyStrip (lookupStr [("SQLQuery".data, q), ("Suggestion".data, s)]
        "Suggestion".data))) = some (q, s)
  rw [hl1, hl2, hq0, hs0, if_neg]
  exact fun h => h.elim hqne hsne

/-! ## Claim theorems: LLM-response round trip -/

/-- C9 counterexample: a response object whose `SQLQuery` has trailing
whitespace does not round-trip — `_parse_llm_response` strips the extracted
fields, so parsing the raw serialisation of
`{SQLQuery: "SELECT 2 ", Suggestion: "ok"}` returns `"SELECT 2"`, not the
original field. -/
theorem c9_roundtrip_counterexample :
    parseLLMResponse (dumpsResponse "SELECT 2 ".data "ok".data) =
      some ("SELECT 2".data, "ok".data) ∧
    some ("SELECT 2".data, "ok".data) ≠
      some ("SELECT 2 ".data, "ok".data) :=
  ⟨rfl, by decide⟩

/-- C9 (amended): for an object whose two fields are non-empty, have no
leading or trailing whitespace, consist of printable ASCII (plus
newline/tab/CR), and whose serialisation contains no triple-backtick fence,
parsing recovers exactly the fields — for the raw serialisation and for both
fenced wrappings.  (In general the parser returns the whitespace-stripped
fields, and a fence inside the body truncates a fenced wrapping.) -/
theorem c9_parse_roundtrip (q s : List Char)
    (hqG : ∀ c ∈ q, GoodChar c) (hsG : ∀ c ∈ s, GoodChar c)
    (hq0 : pyStrip q = q) (hs0 : pyStrip s = s)
    (hqne : q ≠ []) (hsne : s ≠ [])
    (hfence : containsSub fenceChars (dumpsResponse q s) = false) :
    parseLLMResponse (dumpsResponse q s) = some (q, s) ∧
    parseLLMResponse (wrapFencedJson (dumpsResponse q s)) = some (q, s) ∧
    parseLLMResponse (wrapFenced (dumpsResponse q s)) = some (q, s) :=
  ⟨parseLLMResponse_of_clean q s _ (clean_dumps q s) hqG hsG hq0 hs0 hqne hsne,
   parseLLMResponse_of_clean q s _ (clean_wrapFencedJson_dumps q s hfence)
     hqG hsG hq0 hs0 hqne hsne,
   parseLLMResponse_of_clean q s _ (clean_wrapFenced_dumps q s hfence)
     hqG hsG hq0 hs0 hqne hsne⟩

/-- Closed witness for `c9_parse_roundtrip`. -/
theorem c9_parse_roundtrip_witness :
    parseLLMResponse (dumpsResponse "SELECT name FROM employees".data
        "lists employee names".data) =
      some ("SELECT name FROM employees".data, "lists employee names".data) ∧
    parseLLMResponse (wrapFencedJson (dumpsResponse
        "SELECT name FROM employees".data "lists employee names".data)) =
      some ("SELECT name FROM employees".data, "lists employee names".data) ∧
    parseLLMResponse (wrapFenced (dumpsResponse
        "SELECT name FROM employees".data "lists employee names".data)) =
      some ("SELECT name FROM employees".data, "lists employee names".data) :=
  c9_parse_roundtrip "SELECT name FROM employees".data
    "lists employee names".data (by decide) (by decide) (by decide) (by decide)
    (by decide) (by decide) (by decide)

end NL2SQL
